import Mathlib

/-!
# rancherd: plan construction (`pkg/join`, `pkg/resources`, `pkg/rancher`)

A shallow embedding of the Go functions that build `applyinator.File` and
`applyinator.Instruction` values.

Conventions of the embedding

* A Go `string` is a Lean `String` (a sequence of Unicode characters; byte
  strings that are not valid UTF-8 are outside the model); `[]byte` is
  `List UInt8`.
* A Go `error` is its message (`GoError`).  A Go result pair `(*T, error)` is
  `Except GoError T`; where the code can also return `nil, nil` the result is
  `Except GoError (Option T)`.
* Code outside the listed sources (`pkg/roles`, `pkg/cacerts`, `pkg/kubectl`,
  `pkg/self`, `pkg/versions`, the operating system, `randomtoken`, `yaml`)
  is a field of a `Deps` structure: the functions are parameterised
  by it.
* Where a property concerns which collaborators are called, the function
  returns, next to its result, the list of calls it made, in order (`Call`).
-/

namespace Rancherd

/-- A Go `error`, represented by its message. -/
abbrev GoError := String

/-! ## Go standard library helpers -/

/-- Go `fmt.Sprint` of a `bool`. -/
def fmtSprintBool : Bool → String
  | true => "true"
  | false => "false"

/-- Go `strings.Join`. -/
def stringsJoin : List String → String → String
  | [], _ => ""
  | [a], _ => a
  | a :: b :: rest, sep => a ++ sep ++ stringsJoin (b :: rest) sep

/-- Scanning loop of `strings.ReplaceAll` for a non-empty `old`: `skip` counts the
characters of a match that are still to be consumed. -/
def replaceScan (old new : List Char) : Nat → List Char → List Char
  | _, [] => []
  | skip + 1, _ :: cs => replaceScan old new skip cs
  | 0, c :: cs =>
    if old.isPrefixOf (c :: cs) then new ++ replaceScan old new (old.length - 1) cs
    else c :: replaceScan old new 0 cs

/-- Go `strings.ReplaceAll`: non-overlapping matches of `old`, left to right; an empty
`old` matches before every character and at the end. -/
def stringsReplaceAll (s old new : String) : String :=
  if old.data = [] then
    ⟨(s.data.map (fun c => new.data ++ [c])).flatten ++ new.data⟩
  else
    ⟨replaceScan old.data new.data 0 s.data⟩

/-- Go `unicode.IsSpace`. -/
def unicodeIsSpace (c : Char) : Bool :=
  let n := c.toNat
  (9 ≤ n && n ≤ 13) || n = 0x20 || n = 0x85 || n = 0xA0 || n = 0x1680 ||
  (0x2000 ≤ n && n ≤ 0x200A) || n = 0x2028 || n = 0x2029 || n = 0x202F ||
  n = 0x205F || n = 0x3000

/-- Go `strings.TrimSpace`. -/
def stringsTrimSpace (s : String) : String :=
  ⟨((s.data.dropWhile unicodeIsSpace).reverse.dropWhile unicodeIsSpace).reverse⟩

/-- Go `strings.Split(s, ".")[0]`: the part of `s` before the first dot. -/
def firstDotSegment (s : String) : String :=
  ⟨s.data.takeWhile (fun c => c != '.')⟩

/-- Go `[]byte(s)`. -/
def bytesOf (s : String) : List UInt8 := s.toUTF8.data.toList

/-- The alphabet of `base64.StdEncoding`. -/
def base64Alphabet : List Char :=
  "ABCDEFGHIJKLMNOPQRSTUVWXYZabcdefghijklmnopqrstuvwxyz0123456789+/".data

/-- The character of a 6-bit group. -/
def base64Digit (n : Nat) : Char := base64Alphabet.getD n 'A'

/-- The `base64.StdEncoding` encoding of a byte sequence, with `=` padding. -/
def base64Chars : List UInt8 → List Char
  | a :: b :: c :: rest =>
    let n := a.toNat * 65536 + b.toNat * 256 + c.toNat
    base64Digit (n / 262144) :: base64Digit (n / 4096 % 64) ::
      base64Digit (n / 64 % 64) :: base64Digit (n % 64) :: base64Chars rest
  | [a, b] =>
    let n := a.toNat * 1024 + b.toNat * 4
    [base64Digit (n / 4096), base64Digit (n / 64 % 64), base64Digit (n % 64), '=']
  | [a] =>
    let n := a.toNat * 16
    [base64Digit (n / 64), base64Digit (n % 64), '=', '=']
  | [] => []

/-- Go `base64.StdEncoding.EncodeToString`. -/
def base64EncodeToString (data : List UInt8) : String := ⟨base64Chars data⟩

/-! ## Step model (`applyinator`) and configuration (`pkg/config`) -/

/-- The fields of `applyinator.File` the code sets. -/
structure File where
  Content : String
  Path : String
deriving DecidableEq, Repr

/-- The fields of `applyinator.Instruction` the code sets; the defaults are Go's
zero values. -/
structure Instruction where
  Name : String := ""
  SaveOutput : Bool := false
  Image : String := ""
  Env : List String := []
  Args : List String := []
  Command : String := ""
deriving DecidableEq, Repr

/-- A Go `interface{}` value as it occurs in a manifest document.  A Go map is
an association list here, keys in source order. -/
inductive Value where
  | null
  | bool (b : Bool)
  | int (n : Int)
  | str (s : String)
  | bytes (b : List UInt8)
  | seq (items : List Value)
  | map (entries : List (String × Value))

/-- Type `v1.GenericMap`. -/
structure GenericMap where
  Data : List (String × Value)

/-- Map index `m[key]` on a `map[string]interface{}` value. -/
def Value.index : Value → String → Option Value
  | .map entries, key => entries.lookup key
  | _, _ => none

/-- Field `kind` of a document body. -/
def docKind (obj : List (String × Value)) : Option Value := obj.lookup "kind"

/-- Field `metadata.name` of a document body. -/
def docMetadataName (obj : List (String × Value)) : Option Value :=
  (obj.lookup "metadata").bind (fun m => m.index "name")

/-- Field `data.<key>` of a document body. -/
def docDataField (obj : List (String × Value)) (key : String) : Option Value :=
  (obj.lookup "data").bind (fun m => m.index key)

/-- The fields of `config.Config` read by the code. -/
structure Config where
  Server : String := ""
  Token : String := ""
  Role : String := ""
  KubernetesVersion : String := ""
  NodeName : String := ""
  Address : String := ""
  InternalAddress : String := ""
  Labels : List String := []
  Taints : List String := []
  Resources : List GenericMap := []

/-- Type `unstructured.Unstructured`. -/
structure Unstructured where
  Object : List (String × Value)

/-- A call to a collaborator outside the listed sources. -/
inductive Call where
  | cacertsCACerts (server token : String) (verify : Bool)
  | cacertsGet (server token path : String)
  | osHostname
  | versionsK8sVersion (requested : String)
  | randomtokenGenerate
  | yamlToBytes (objs : List Unstructured)
  | readFile (path : String)
  | mkdirAll (path : String) (perm : Nat)
  | writeFile (path : String) (data : String) (perm : Nat)

/-- A result together with the collaborator calls made to obtain it. -/
abbrev Traced (α : Type) := Except GoError α × List Call

/-- Sequencing: an error stops the computation; the logs are concatenated. -/
def Traced.andThen {α β : Type} (x : Traced α) (f : α → Traced β) : Traced β :=
  match x with
  | (.error e, log) => (.error e, log)
  | (.ok a, log) => ((f a).1, log ++ (f a).2)

instance : Monad Traced where
  pure a := (.ok a, [])
  bind := Traced.andThen

/-- Whether a call is `randomtoken.Generate()`. -/
def Call.isGenerate : Call → Bool
  | .randomtokenGenerate => true
  | _ => false

/-- Whether a call changes the file system. -/
def Call.isWrite : Call → Bool
  | .mkdirAll _ _ => true
  | .writeFile _ _ _ => true
  | _ => false

/-- One logged collaborator call with outcome `r`. -/
def Traced.call {α : Type} (c : Call) (r : Except GoError α) : Traced α := (r, [c])

/-! ## `pkg/join` -/

namespace join

/-- Collaborators of `pkg/join`. -/
structure Deps where
  /-- collaborator `roles.IsEtcd` -/
  IsEtcd : String → Bool
  /-- collaborator `roles.IsControlPlane` -/
  IsControlPlane : String → Bool
  /-- collaborator `roles.IsWorker` -/
  IsWorker : String → Bool
  /-- collaborator `cacerts.CACerts(server, token, clientCA)`: certificate bytes and checksum -/
  CACerts : String → String → Bool → Except GoError (List UInt8 × String)
  /-- collaborator `cacerts.Get(server, token, path)`: body and checksum -/
  Get : String → String → String → Except GoError (List UInt8 × String)
  /-- collaborator `time.Now().UnixNano()` -/
  UnixNano : Int

def addEnv (env : List String) (key value : String) : List String :=
  env ++ [key ++ "=" ++ value]

def GetInstallScriptFile (dataDir : String) : String :=
  dataDir ++ "/install.sh"

def ToScriptFile (d : Deps) (config : Config) (dataDir : String) :
    Except GoError File × List Call :=
  match d.Get config.Server config.Token "/system-agent-install.sh" with
  | .error err =>
    (.error err, [Call.cacertsGet config.Server config.Token "/system-agent-install.sh"])
  | .ok (data, _) =>
    (.ok { Content := base64EncodeToString data, Path := GetInstallScriptFile dataDir },
      [Call.cacertsGet config.Server config.Token "/system-agent-install.sh"])

def ToInstruction (d : Deps) (config : Config) (dataDir : String) :
    Except GoError Instruction × List Call :=
  let etcd := d.IsEtcd config.Role
  let controlPlane := d.IsControlPlane config.Role
  let worker := d.IsWorker config.Role
  if !etcd && !controlPlane && !worker then
    (.error ("invalid role (" ++ config.Role ++ ") defined"), [])
  else
    match d.CACerts config.Server config.Token true with
    | .error err => (.error err, [Call.cacertsCACerts config.Server config.Token true])
    | .ok (_, caChecksum) =>
      let env : List String := []
      let env := addEnv env "CATTLE_SERVER" config.Server
      let env := addEnv env "CATTLE_TOKEN" config.Token
      let env := addEnv env "CATTLE_CA_CHECKSUM" caChecksum
      let env := addEnv env "CATTLE_ADDRESS" config.Address
      let env := addEnv env "CATTLE_INTERNAL_ADDRESS" config.InternalAddress
      let env := addEnv env "CATTLE_LABELS" (stringsJoin config.Labels ",")
      let env := addEnv env "CATTLE_TAINTS" (stringsJoin config.Taints ",")
      let env := addEnv env "CATTLE_ROLE_ETCD" (fmtSprintBool etcd)
      let env := addEnv env "CATTLE_ROLE_CONTROLPLANE" (fmtSprintBool controlPlane)
      let env := addEnv env "CATTLE_ROLE_WORKER" (fmtSprintBool worker)
      (.ok {
          Name := "join"
          SaveOutput := true
          Env := env
          Args := ["sh", GetInstallScriptFile dataDir]
          Command := "/usr/bin/env" },
        [Call.cacertsCACerts config.Server config.Token true])

def ToInstallRKE2AgentInstruction (d : Deps) (config : Config) :
    Except GoError Instruction :=
  .ok {
    Name := "install-rke2-agent"
    Image := "rancher/system-agent-installer-rke2:" ++
      stringsReplaceAll config.KubernetesVersion "+" "-"
    Env := ["RESTART_STAMP=" ++ toString d.UnixNano,
            "INSTALL_RKE2_EXEC=" ++ config.Role]
    Args := ["-c", "run.sh"]
    Command := "sh" }

end join

/-! ## `pkg/resources` -/

namespace resources

/-- The identity store: the part of the file system `getCattleID` touches. -/
structure Store where
  /-- whether `/etc/rancher` exists -/
  etcRancher : Bool
  /-- whether `/etc/rancher/agent` exists -/
  etcRancherAgent : Bool
  /-- content of `/etc/rancher/agent/cattle-id`, `none` when the file does not exist -/
  cattleID : Option String
  /-- set when reading the file fails for a reason other than "does not exist" -/
  readFault : Option GoError
deriving DecidableEq, Repr

/-- Collaborators of `pkg/resources`. -/
structure Deps where
  /-- collaborator `os.Hostname()` -/
  Hostname : Except GoError String
  /-- collaborator `versions.K8sVersion` -/
  K8sVersion : String → Except GoError String
  /-- outcome of `randomtoken.Generate()` -/
  Generate : Except GoError String
  /-- collaborator `yaml.ToBytes` -/
  ToBytes : List Unstructured → Except GoError (List UInt8)
  /-- failure of `os.MkdirAll` on a path, if any -/
  MkdirAllFault : String → Option GoError
  /-- failure of `ioutil.WriteFile`, if any -/
  WriteFileFault : Option GoError

def localRKEStateSecretType : String := "rke.cattle.io/cluster-state"

/-- Go `ioutil.ReadFile("/etc/rancher/agent/cattle-id")` on the store: the data, or
`none` with `os.IsNotExist`, or another error. -/
def readCattleIDFile (s : Store) : Except GoError (Option String) :=
  match s.readFault with
  | some err => .error err
  | none => .ok s.cattleID

/-- The error result of `writeCattleID` (`none` is Go's `nil`), the store after
it, and its calls.  A failing call leaves the store as it was. -/
def writeCattleID (d : Deps) (s : Store) (id : String) :
    (Option GoError × Store) × List Call :=
  match d.MkdirAllFault "/etc/rancher" with
  | some err =>
    ((some ("mkdir /etc/rancher: " ++ err), s), [Call.mkdirAll "/etc/rancher" 0o755])
  | none =>
    let s1 := { s with etcRancher := true }
    match d.MkdirAllFault "/etc/rancher/agent" with
    | some err =>
      ((some ("mkdir /etc/rancher/agent: " ++ err), s1),
        [Call.mkdirAll "/etc/rancher" 0o755, Call.mkdirAll "/etc/rancher/agent" 0o700])
    | none =>
      let s2 := { s1 with etcRancherAgent := true }
      let calls := [Call.mkdirAll "/etc/rancher" 0o755,
        Call.mkdirAll "/etc/rancher/agent" 0o700,
        Call.writeFile "/etc/rancher/agent/cattle-id" id 0o400]
      match d.WriteFileFault with
      | some err => ((some err, s2), calls)
      | none => ((none, { s2 with cattleID := some id }), calls)

/-- The result of `getCattleID`, the store after it, and its calls.  Go returns
`id, writeCattleID(id)`; a non-nil error there is the `error` case here. -/
def getCattleID (d : Deps) (s : Store) : (Except GoError String × Store) × List Call :=
  match readCattleIDFile s with
  | .error err => ((.error err, s), [Call.readFile "/etc/rancher/agent/cattle-id"])
  | .ok data =>
    let id := stringsTrimSpace (data.getD "")
    if id = "" then
      match d.Generate with
      | .error err =>
        ((.error err, s),
          [Call.readFile "/etc/rancher/agent/cattle-id", Call.randomtokenGenerate])
      | .ok id =>
        match writeCattleID d s id with
        | ((some err, s'), calls) =>
          ((.error err, s'),
            [Call.readFile "/etc/rancher/agent/cattle-id", Call.randomtokenGenerate] ++ calls)
        | ((none, s'), calls) =>
          ((.ok id, s'),
            [Call.readFile "/etc/rancher/agent/cattle-id", Call.randomtokenGenerate] ++ calls)
    else
      ((.ok id, s), [Call.readFile "/etc/rancher/agent/cattle-id"])

/-- The objects `ToFile` builds from a resource list: one per resource, in order,
its `Data` unchanged. -/
def asObjects (resources : List GenericMap) : List Unstructured :=
  resources.map (fun resource => { Object := resource.Data })

def ToFile (d : Deps) (resources : List GenericMap) (path : String) :
    Traced (Option File) :=
  if resources.length = 0 then
    pure none
  else do
    let objs : List Unstructured :=
      resources.foldl (fun objs resource => objs ++ [{ Object := resource.Data }]) []
    let data ← Traced.call (Call.yamlToBytes objs) (d.ToBytes objs)
    pure (some { Content := base64EncodeToString data, Path := path })

/-- The `Node` document of `ToBootstrapFile`. -/
def nodeDocument (nodeName : String) : GenericMap :=
  { Data := [
      ("kind", .str "Node"),
      ("apiVersion", .str "v1"),
      ("metadata", .map [
        ("name", .str nodeName),
        ("labels", .map [("node-role.kubernetes.io/etcd", .str "true")])])] }

/-- The `Namespace` document of `ToBootstrapFile`. -/
def namespaceDocument : GenericMap :=
  { Data := [
      ("kind", .str "Namespace"),
      ("apiVersion", .str "v1"),
      ("metadata", .map [("name", .str "fleet-local")])] }

/-- The `Cluster` document of `ToBootstrapFile`. -/
def clusterDocument (k8sVersion : String) : GenericMap :=
  { Data := [
      ("kind", .str "Cluster"),
      ("apiVersion", .str "provisioning.cattle.io/v1"),
      ("metadata", .map [
        ("name", .str "local"),
        ("namespace", .str "fleet-local"),
        ("labels", .map [("provisioning.cattle.io/management-cluster-name", .str "local")])]),
      ("spec", .map [
        ("kubernetesVersion", .str k8sVersion),
        ("rkeConfig", .map [])])] }

/-- The `Secret` document of `ToBootstrapFile`. -/
def secretDocument (token : String) : GenericMap :=
  { Data := [
      ("kind", .str "Secret"),
      ("apiVersion", .str "v1"),
      ("metadata", .map [
        ("name", .str "local-rke-state"),
        ("namespace", .str "fleet-local")]),
      ("type", .str localRKEStateSecretType),
      ("data", .map [
        ("serverToken", .bytes (bytesOf token)),
        ("agentToken", .bytes (bytesOf token))])] }

def ToBootstrapFile (d : Deps) (config : Config) (path : String) :
    Traced (Option File) := do
  let nodeName ←
    if config.NodeName = "" then do
      let hostname ← Traced.call Call.osHostname
        (d.Hostname.mapError (fun err => "looking up hostname: " ++ err))
      pure (firstDotSegment hostname)
    else
      pure config.NodeName
  let k8sVersion ← Traced.call (Call.versionsK8sVersion config.KubernetesVersion)
    (d.K8sVersion config.KubernetesVersion)
  let token ←
    if config.Token = "" then
      Traced.call Call.randomtokenGenerate d.Generate
    else
      pure config.Token
  let resources := config.Resources
  ToFile d (resources ++ [nodeDocument nodeName, namespaceDocument,
    clusterDocument k8sVersion, secretDocument token]) path

end resources

/-! ## `pkg/rancher` (wait.go) -/

namespace rancher

/-- Collaborators of `pkg/rancher`, and the package constants declared outside
wait.go. -/
structure Deps where
  /-- collaborator `self.Self()` -/
  Self : Except GoError String
  /-- collaborator `os.Args[0]` -/
  Args0 : String
  /-- collaborator `kubectl.Command` -/
  Command : String → String
  /-- collaborator `kubectl.Env` -/
  Env : String → List String
  /-- constant `clusterNamespace` -/
  clusterNamespace : String
  /-- constant `clusterClientSecret` -/
  clusterClientSecret : String

/-- The error of a failed self-location:
`fmt.Errorf("resolving location of %s: %w", os.Args[0], err)`. -/
def resolvingLocationError (d : Deps) (err : GoError) : GoError :=
  "resolving location of " ++ d.Args0 ++ ": " ++ err

def ToWaitRancherInstruction (d : Deps) (_ _ k8sVersion : String) :
    Except GoError Instruction :=
  match d.Self with
  | .error err => .error (resolvingLocationError d err)
  | .ok cmd =>
    .ok {
      Name := "wait-rancher"
      SaveOutput := true
      Args := ["retry", d.Command k8sVersion, "-n", "cattle-system", "rollout", "status",
        "-w", "deploy/rancher"]
      Env := d.Env k8sVersion
      Command := cmd }

def ToWaitRancherWebhookInstruction (d : Deps) (_ _ k8sVersion : String) :
    Except GoError Instruction :=
  match d.Self with
  | .error err => .error (resolvingLocationError d err)
  | .ok cmd =>
    .ok {
      Name := "wait-rancher-webhook"
      SaveOutput := true
      Args := ["retry", d.Command k8sVersion, "-n", "cattle-system", "rollout", "status",
        "-w", "deploy/rancher-webhook"]
      Env := d.Env k8sVersion
      Command := cmd }

def ToWaitSUCInstruction (d : Deps) (_ _ k8sVersion : String) :
    Except GoError Instruction :=
  match d.Self with
  | .error err => .error (resolvingLocationError d err)
  | .ok cmd =>
    .ok {
      Name := "wait-system-upgrade-controller"
      SaveOutput := true
      Args := ["retry", d.Command k8sVersion, "-n", "cattle-system", "rollout", "status",
        "-w", "deploy/system-upgrade-controller"]
      Env := d.Env k8sVersion
      Command := cmd }

def ToWaitSUCPlanInstruction (d : Deps) (_ _ k8sVersion : String) :
    Except GoError Instruction :=
  match d.Self with
  | .error err => .error (resolvingLocationError d err)
  | .ok cmd =>
    .ok {
      Name := "wait-suc-plan-resolved"
      SaveOutput := true
      Args := ["retry", d.Command k8sVersion, "-n", "cattle-system", "wait",
        "--for=condition=LatestResolved=true", "plans.upgrade.cattle.io",
        "system-agent-upgrader"]
      Env := d.Env k8sVersion
      Command := cmd }

def ToWaitClusterClientSecretInstruction (d : Deps) (_ _ k8sVersion : String) :
    Except GoError Instruction :=
  match d.Self with
  | .error err => .error (resolvingLocationError d err)
  | .ok cmd =>
    .ok {
      Name := "wait-cluster-client-secret-resolved"
      SaveOutput := true
      Args := ["retry", d.Command k8sVersion, "-n", d.clusterNamespace, "get", "secret",
        d.clusterClientSecret]
      Env := d.Env k8sVersion
      Command := cmd }

def ToUpdateClientSecretInstruction (d : Deps) (_ _ k8sVersion : String) :
    Except GoError Instruction :=
  match d.Self with
  | .error err => .error (resolvingLocationError d err)
  | .ok cmd =>
    .ok {
      Name := "update-client-secret"
      SaveOutput := true
      Args := ["update-client-secret"]
      Env := d.Env k8sVersion
      Command := cmd }

def ToScaleDownFleetControllerInstruction (d : Deps) (_ _ k8sVersion : String) :
    Except GoError Instruction :=
  match d.Self with
  | .error err => .error (resolvingLocationError d err)
  | .ok cmd =>
    .ok {
      Name := "scale-down-fleet-controller"
      SaveOutput := true
      Args := ["retry", d.Command k8sVersion, "-n", "cattle-fleet-system", "scale",
        "--replicas", "0", "deploy/fleet-controller"]
      Env := d.Env k8sVersion
      Command := cmd }

def ToScaleUpFleetControllerInstruction (d : Deps) (_ _ k8sVersion : String) :
    Except GoError Instruction :=
  match d.Self with
  | .error err => .error (resolvingLocationError d err)
  | .ok cmd =>
    .ok {
      Name := "scale-up-fleet-controller"
      SaveOutput := true
      Args := ["retry", d.Command k8sVersion, "-n", "cattle-fleet-system", "scale",
        "--replicas", "1", "deploy/fleet-controller"]
      Env := d.Env k8sVersion
      Command := cmd }

def ToDeleteRancherWebhookValidationConfiguration (d : Deps) (k8sVersion : String) :
    Except GoError Instruction :=
  match d.Self with
  | .error err => .error (resolvingLocationError d err)
  | .ok cmd =>
    .ok {
      Name := "delete-rancher-webhook-validation-configuration"
      SaveOutput := true
      Args := ["retry", d.Command k8sVersion, "delete", "validatingwebhookconfiguration",
        "rancher.cattle.io"]
      Env := d.Env k8sVersion
      Command := cmd }

def ToRestartRancherWebhookInstruction (d : Deps) (k8sVersion : String) :
    Except GoError Instruction :=
  match d.Self with
  | .error err => .error (resolvingLocationError d err)
  | .ok cmd =>
    .ok {
      Name := "wait-rancher-webhook"
      SaveOutput := true
      Args := ["retry", d.Command k8sVersion, "-n", "cattle-system", "rollout", "restart",
        "deploy/rancher-webhook"]
      Env := d.Env k8sVersion
      Command := cmd }

def PatchLocalProvisioningClusterStatus (d : Deps) (_ _ k8sVersion : String) :
    Except GoError Instruction :=
  match d.Self with
  | .error err => .error (resolvingLocationError d err)
  | .ok cmd =>
    .ok {
      Name := "patch-provisioning-cluster-status"
      SaveOutput := true
      Args := ["retry", d.Command k8sVersion, "-n", "fleet-local", "patch",
        "cluster.provisioning", "local", "--subresource=status",
        "--type=merge", "--patch",
        "\x7b\"status\":\x7b\"fleetWorkspaceName\": \"fleet-local\"\x7d\x7d"]
      Env := d.Env k8sVersion
      Command := cmd }

end rancher

/-! ## Concrete collaborators

Fixed collaborator sets and inputs on which the functions are evaluated. -/

/-- Whether `sub` occurs in `s` (`strings.Contains`). -/
def stringsContains (s sub : String) : Bool :=
  s.data.tails.any (fun t => sub.data.isPrefixOf t)

/-- Modelled from the spec: `pkg/roles` is not among the sources; section 4.4
describes the classifier as case-sensitive substring matching against the role
tokens, taken here as `etcd`, `control-plane` and `worker`.  The trust
collaborator answers every request with a fixed script and checksum. -/
def join.sampleDeps : join.Deps where
  IsEtcd := fun role => stringsContains role "etcd"
  IsControlPlane := fun role => stringsContains role "control-plane"
  IsWorker := fun role => stringsContains role "worker"
  CACerts := fun _ _ _ => .ok ([45, 45], "0f3a")
  Get := fun _ _ _ => .ok ([35, 33], "0f3a")
  UnixNano := 1700000000000000000

/-- Scenario B of the specification: a worker joining with token `abc`. -/
def join.workerConfig : Config :=
  { Role := "worker", Server := "https://vip:443", Token := "abc" }

/-- Scenario C of the specification: the empty role. -/
def join.emptyRoleConfig : Config :=
  { Role := "", Server := "https://vip:443", Token := "abc" }

/-- A serializer standing in for `yaml.ToBytes`: one byte per document. -/
def resources.sampleToBytes (objs : List Unstructured) : Except GoError (List UInt8) :=
  .ok (objs.map (fun _ => 45))

/-- Collaborators that all succeed; the generator yields `k8stoken`. -/
def resources.sampleDeps : resources.Deps where
  Hostname := .ok "node1.example.com"
  K8sVersion := fun v => .ok v
  Generate := .ok "k8stoken"
  ToBytes := resources.sampleToBytes
  MkdirAllFault := fun _ => none
  WriteFileFault := none

/-- Collaborators whose generator and file-system calls all fail. -/
def resources.failingDeps : resources.Deps where
  Hostname := .error "hostname: unavailable"
  K8sVersion := fun _ => .error "unsupported version"
  Generate := .error "entropy unavailable"
  ToBytes := fun _ => .error "yaml: unsupported"
  MkdirAllFault := fun _ => some "permission denied"
  WriteFileFault := some "permission denied"

/-- An empty identity store. -/
def resources.emptyStore : resources.Store :=
  { etcRancher := false, etcRancherAgent := false, cattleID := none, readFault := none }

/-- A caller-supplied resource document. -/
def resources.sampleResource : GenericMap :=
  { Data := [("kind", .str "ConfigMap"), ("apiVersion", .str "v1"),
      ("metadata", .map [("name", .str "settings")])] }

/-- Scenario A of the specification without caller resources: first node, token
to be generated. -/
def resources.initConfig : Config :=
  { Role := "etcd,control-plane", Server := "https://vip:443", Token := "",
    KubernetesVersion := "v1.27.13+rke2r1" }

/-- A bootstrap configuration with one caller resource and an explicit token. -/
def resources.oneResourceConfig : Config :=
  { Role := "etcd,control-plane", Server := "https://vip:443", Token := "abc",
    NodeName := "node1", KubernetesVersion := "v1.27.13+rke2r1",
    Resources := [resources.sampleResource] }

/-- Collaborators whose host name lookup fails while version resolution, the
generator and the serializer succeed. -/
def resources.noHostnameDeps : resources.Deps where
  Hostname := .error "hostname: unavailable"
  K8sVersion := fun v => .ok v
  Generate := .ok "k8stoken"
  ToBytes := resources.sampleToBytes
  MkdirAllFault := fun _ => none
  WriteFileFault := none

/-- A bootstrap configuration with one caller resource and an explicit token that
leaves the node name to the host name. -/
def resources.unnamedNodeConfig : Config :=
  { Role := "etcd,control-plane", Server := "https://vip:443", Token := "abc",
    NodeName := "", KubernetesVersion := "v1.27.13+rke2r1",
    Resources := [resources.sampleResource] }

/-- Collaborators of `pkg/rancher` with a resolvable executable. -/
def rancher.sampleDeps : rancher.Deps where
  Self := .ok "/usr/bin/rancherd"
  Args0 := "rancherd"
  Command := fun k8sVersion => "/var/lib/rancher/" ++ k8sVersion ++ "/bin/kubectl"
  Env := fun _ => ["KUBECONFIG=/etc/rancher/rke2/rke2.yaml"]
  clusterNamespace := "fleet-local"
  clusterClientSecret := "local-kubeconfig"

end Rancherd

/-! ## Lemmas on the library helpers -/

namespace Rancherd

/-- Replacing `+` by `-` acts character by character. -/
theorem replaceScan_plus (l : List Char) :
    replaceScan ['+'] ['-'] 0 l = l.map (fun c => if c = '+' then '-' else c) := by
  induction l with
  | nil => rfl
  | cons c cs ih =>
    by_cases hc : c = '+'
    · subst hc
      simp [replaceScan, List.isPrefixOf, ih]
    · have hc' : ¬ '+' = c := fun h => hc h.symm
      simp [replaceScan, List.isPrefixOf, hc, hc', ih]

theorem stringsReplaceAll_plus (s : String) :
    (stringsReplaceAll s "+" "-").data = s.data.map (fun c => if c = '+' then '-' else c) := by
  have h : ("+" : String).data = ['+'] := rfl
  have h' : ("-" : String).data = ['-'] := rfl
  simp [stringsReplaceAll, h, h', replaceScan_plus]

/-! ## `pkg/join` -/

/-- C1: when the role classifies to no capability, `join.ToInstruction` returns
no Instruction and the error `invalid role (<role>) defined`, and it has made no
collaborator call: the CA-checksum fetch is not invoked. -/
theorem ToInstruction_invalid_role (d : join.Deps) (config : Config) (dataDir : String)
    (hetcd : d.IsEtcd config.Role = false)
    (hcp : d.IsControlPlane config.Role = false)
    (hworker : d.IsWorker config.Role = false) :
    join.ToInstruction d config dataDir =
      (.error ("invalid role (" ++ config.Role ++ ") defined"), []) := by
  simp [join.ToInstruction, hetcd, hcp, hworker]

/-- Scenario C: the empty role is rejected before the trust collaborator is asked. -/
theorem ToInstruction_invalid_role_witness :
    join.ToInstruction join.sampleDeps join.emptyRoleConfig "/var/lib/rancher/rancherd" =
      (.error ("invalid role (" ++ join.emptyRoleConfig.Role ++ ") defined"), []) :=
  ToInstruction_invalid_role join.sampleDeps join.emptyRoleConfig "/var/lib/rancher/rancherd"
    (by decide) (by decide) (by decide)

/-- C2: with a valid role and a successful CA-checksum fetch with checksum `c`,
`join.ToInstruction` returns the Instruction `join` with `SaveOutput` set whose
environment is the ten entries in the fixed order, config values verbatim and
each role flag printed as `true` or `false`. -/
theorem ToInstruction_env (d : join.Deps) (config : Config) (dataDir : String)
    (certs : List UInt8) (c : String)
    (hrole : d.IsEtcd config.Role = true ∨ d.IsControlPlane config.Role = true ∨
      d.IsWorker config.Role = true)
    (hca : d.CACerts config.Server config.Token true = .ok (certs, c)) :
    ∃ inst, (join.ToInstruction d config dataDir).1 = .ok inst ∧
      inst.Name = "join" ∧ inst.SaveOutput = true ∧
      inst.Env = [
        "CATTLE_SERVER=" ++ config.Server,
        "CATTLE_TOKEN=" ++ config.Token,
        "CATTLE_CA_CHECKSUM=" ++ c,
        "CATTLE_ADDRESS=" ++ config.Address,
        "CATTLE_INTERNAL_ADDRESS=" ++ config.InternalAddress,
        "CATTLE_LABELS=" ++ stringsJoin config.Labels ",",
        "CATTLE_TAINTS=" ++ stringsJoin config.Taints ",",
        "CATTLE_ROLE_ETCD=" ++ (if d.IsEtcd config.Role = true then "true" else "false"),
        "CATTLE_ROLE_CONTROLPLANE=" ++
          (if d.IsControlPlane config.Role = true then "true" else "false"),
        "CATTLE_ROLE_WORKER=" ++ (if d.IsWorker config.Role = true then "true" else "false")] := by
  have hnot : (!d.IsEtcd config.Role && !d.IsControlPlane config.Role &&
      !d.IsWorker config.Role) = false := by
    rcases hrole with h | h | h <;> simp [h]
  have hb : ∀ b : Bool, fmtSprintBool b = if b = true then "true" else "false" := by
    intro b; cases b <;> rfl
  simp only [join.ToInstruction, hnot, hca, Bool.false_eq_true, if_false]
  refine ⟨_, rfl, rfl, rfl, ?_⟩
  simp only [join.addEnv, List.nil_append, List.cons_append, hb]
  rfl

/-- Scenario B: a worker-only role with token `abc`. -/
theorem ToInstruction_env_witness :
    ∃ inst, (join.ToInstruction join.sampleDeps join.workerConfig "/var/lib/rancher/rancherd").1
        = .ok inst ∧
      inst.Name = "join" ∧ inst.SaveOutput = true ∧
      inst.Env = [
        "CATTLE_SERVER=https://vip:443",
        "CATTLE_TOKEN=abc",
        "CATTLE_CA_CHECKSUM=0f3a",
        "CATTLE_ADDRESS=",
        "CATTLE_INTERNAL_ADDRESS=",
        "CATTLE_LABELS=",
        "CATTLE_TAINTS=",
        "CATTLE_ROLE_ETCD=false",
        "CATTLE_ROLE_CONTROLPLANE=false",
        "CATTLE_ROLE_WORKER=true"] :=
  ToInstruction_env join.sampleDeps join.workerConfig "/var/lib/rancher/rancherd"
    [45, 45] "0f3a" (Or.inr (Or.inr (by decide))) rfl

/-- C7: when `join.ToScriptFile` and `join.ToInstruction` both succeed, the staged
File's path is the script argument of the Instruction, which runs
`/usr/bin/env sh <path>`, and the path is `dataDir` followed by `/install.sh`. -/
theorem ToInstruction_invokes_script_path (d : join.Deps) (config : Config)
    (dataDir : String) (file : File) (inst : Instruction)
    (hfile : (join.ToScriptFile d config dataDir).1 = .ok file)
    (hinst : (join.ToInstruction d config dataDir).1 = .ok inst) :
    file.Path = dataDir ++ "/install.sh" ∧
      inst.Command = "/usr/bin/env" ∧
      inst.Args = ["sh", dataDir ++ "/install.sh"] ∧
      inst.Args = ["sh", file.Path] := by
  have hpath : file.Path = dataDir ++ "/install.sh" := by
    unfold join.ToScriptFile at hfile
    split at hfile
    · simp at hfile
    · simp only [Except.ok.injEq] at hfile
      rw [← hfile]
      rfl
  have hi : inst.Command = "/usr/bin/env" ∧ inst.Args = ["sh", dataDir ++ "/install.sh"] := by
    unfold join.ToInstruction at hinst
    simp only at hinst
    split at hinst
    · simp at hinst
    · split at hinst
      · simp at hinst
      · simp only [Except.ok.injEq] at hinst
        rw [← hinst]
        exact ⟨rfl, rfl⟩
  exact ⟨hpath, hi.1, hi.2, by rw [hpath]; exact hi.2⟩

/-- The worker join of scenario B: both steps succeed, and the script is staged at
and run from `/var/lib/rancher/rancherd/install.sh`. -/
theorem ToInstruction_invokes_script_path_witness :
    ∃ file inst,
      (join.ToScriptFile join.sampleDeps join.workerConfig "/var/lib/rancher/rancherd").1
        = .ok file ∧
      (join.ToInstruction join.sampleDeps join.workerConfig "/var/lib/rancher/rancherd").1
        = .ok inst ∧
      file.Path = "/var/lib/rancher/rancherd/install.sh" ∧
      inst.Command = "/usr/bin/env" ∧
      inst.Args = ["sh", "/var/lib/rancher/rancherd/install.sh"] ∧
      inst.Args = ["sh", file.Path] :=
  ⟨_, _, rfl, rfl,
    ToInstruction_invokes_script_path join.sampleDeps join.workerConfig
      "/var/lib/rancher/rancherd" _ _ rfl rfl⟩

/-- C9: for every version string `v`, `join.ToInstallRKE2AgentInstruction` returns
an Instruction whose image is `rancher/system-agent-installer-rke2:` followed by a
tag that is `v` with every `+` replaced by `-`: the tag contains no `+` and has
the length of `v`, in characters and in bytes. -/
theorem ToInstallRKE2AgentInstruction_image_tag (d : join.Deps) (config : Config) :
    ∃ inst tag, join.ToInstallRKE2AgentInstruction d config = .ok inst ∧
      inst.Image = "rancher/system-agent-installer-rke2:" ++ tag ∧
      tag.data = config.KubernetesVersion.data.map (fun c => if c = '+' then '-' else c) ∧
      '+' ∉ tag.data ∧
      tag.length = config.KubernetesVersion.length ∧
      tag.utf8ByteSize = config.KubernetesVersion.utf8ByteSize := by
  refine ⟨_, stringsReplaceAll config.KubernetesVersion "+" "-", rfl, rfl,
    stringsReplaceAll_plus _, ?_, ?_, ?_⟩
  · rw [stringsReplaceAll_plus]
    intro hmem
    rcases List.mem_map.1 hmem with ⟨c, -, hc⟩
    by_cases h : c = '+'
    · rw [if_pos h] at hc
      exact absurd hc (by decide)
    · rw [if_neg h] at hc
      exact h hc
  · show (stringsReplaceAll config.KubernetesVersion "+" "-").data.length
      = config.KubernetesVersion.data.length
    rw [stringsReplaceAll_plus, List.length_map]
  · have hsize : ∀ l : List Char,
        String.utf8Len (l.map (fun c => if c = '+' then '-' else c)) = String.utf8Len l := by
      intro l
      induction l with
      | nil => rfl
      | cons c cs ih =>
        by_cases h : c = '+'
        · subst h
          have h1 : '-'.utf8Size = '+'.utf8Size := by decide
          simp only [List.map_cons, if_true, String.utf8Len_cons, ih, h1]
        · simp only [List.map_cons, if_neg h, String.utf8Len_cons, ih]
    show String.utf8Len (stringsReplaceAll config.KubernetesVersion "+" "-").data
      = String.utf8Len config.KubernetesVersion.data
    rw [stringsReplaceAll_plus, hsize]

/-- The version of the source comment: `v1.27.13+rke2r1` gives the tag
`v1.27.13-rke2r1`. -/
theorem ToInstallRKE2AgentInstruction_example :
    (join.ToInstallRKE2AgentInstruction join.sampleDeps
      { KubernetesVersion := "v1.27.13+rke2r1", Role := "agent" }).map (fun i => i.Image)
      = .ok "rancher/system-agent-installer-rke2:v1.27.13-rke2r1" := by
  rfl

end Rancherd

namespace Rancherd

/-! ## `pkg/resources` -/

theorem andThen_error {α β : Type} (e : GoError) (log : List Call) (f : α → Traced β) :
    Traced.andThen (.error e, log) f = (.error e, log) := rfl

theorem andThen_ok {α β : Type} (a : α) (log : List Call) (f : α → Traced β) :
    Traced.andThen (.ok a, log) f = ((f a).1, log ++ (f a).2) := rfl

/-- The loop of `ToFile` builds `asObjects`. -/
theorem foldl_asObjects (rs : List GenericMap) (acc : List Unstructured) :
    rs.foldl (fun objs resource => objs ++ [({ Object := resource.Data } : Unstructured)]) acc
      = acc ++ resources.asObjects rs := by
  induction rs generalizing acc with
  | nil => simp [resources.asObjects]
  | cons r rs ih => simp [ih, resources.asObjects]

/-- Function `ToFile` on a non-empty list: one serializer call on the objects. -/
theorem ToFile_of_ne_nil (d : resources.Deps) (rs : List GenericMap) (path : String)
    (h : rs ≠ []) :
    resources.ToFile d rs path =
      ((d.ToBytes (resources.asObjects rs)).map
        (fun data => some { Content := base64EncodeToString data, Path := path }),
        [Call.yamlToBytes (resources.asObjects rs)]) := by
  have hlen : ¬ rs.length = 0 := by
    intro h0; exact h (List.length_eq_zero.1 h0)
  simp only [resources.ToFile, hlen, if_false, foldl_asObjects, List.nil_append]
  cases hb : d.ToBytes (resources.asObjects rs) with
  | error e => simp [bind, Traced.andThen, Traced.call, hb, Except.map]
  | ok data => simp [bind, Traced.andThen, Traced.call, hb, Except.map, pure]

/-- Function `ToBootstrapFile` once node name, version and token are resolved. -/
theorem ToBootstrapFile_resolved (d : resources.Deps) (config : Config) (path : String)
    (nodeName k8sVersion token : String)
    (hnode : (config.NodeName ≠ "" ∧ nodeName = config.NodeName) ∨
      (config.NodeName = "" ∧
        ∃ hostname, d.Hostname = .ok hostname ∧ nodeName = firstDotSegment hostname))
    (hver : d.K8sVersion config.KubernetesVersion = .ok k8sVersion)
    (htok : (config.Token ≠ "" ∧ token = config.Token) ∨
      (config.Token = "" ∧ d.Generate = .ok token)) :
    resources.ToBootstrapFile d config path =
      ((d.ToBytes (resources.asObjects (config.Resources ++
          [resources.nodeDocument nodeName, resources.namespaceDocument,
            resources.clusterDocument k8sVersion, resources.secretDocument token]))).map
        (fun data => some { Content := base64EncodeToString data, Path := path }),
        (if config.NodeName = "" then [Call.osHostname] else []) ++
          [Call.versionsK8sVersion config.KubernetesVersion] ++
          (if config.Token = "" then [Call.randomtokenGenerate] else []) ++
          [Call.yamlToBytes (resources.asObjects (config.Resources ++
            [resources.nodeDocument nodeName, resources.namespaceDocument,
              resources.clusterDocument k8sVersion, resources.secretDocument token]))]) := by
  have hne : ∀ a b c e : GenericMap, config.Resources ++ [a, b, c, e] ≠ [] := by
    intro a b c e; simp
  rcases hnode with ⟨hN, rfl⟩ | ⟨hN, hostname, hH, rfl⟩ <;>
  rcases htok with ⟨hT, rfl⟩ | ⟨hT, hG⟩ <;>
  simp [resources.ToBootstrapFile, bind, andThen_ok, Traced.call, pure, hN, hT, hver,
    ToFile_of_ne_nil, hne, *, Except.mapError]

/-- A successful `ToBootstrapFile` has resolved node name, version and token. -/
theorem ToBootstrapFile_ok_resolved (d : resources.Deps) (config : Config) (path : String)
    (r : Option File) (hok : (resources.ToBootstrapFile d config path).1 = .ok r) :
    ∃ nodeName k8sVersion token,
      ((config.NodeName ≠ "" ∧ nodeName = config.NodeName) ∨
        (config.NodeName = "" ∧
          ∃ hostname, d.Hostname = .ok hostname ∧ nodeName = firstDotSegment hostname)) ∧
      d.K8sVersion config.KubernetesVersion = .ok k8sVersion ∧
      ((config.Token ≠ "" ∧ token = config.Token) ∨
        (config.Token = "" ∧ d.Generate = .ok token)) := by
  by_cases hN : config.NodeName = ""
  · cases hH : d.Hostname with
    | error e =>
      simp [resources.ToBootstrapFile, bind, andThen_error, Traced.call, hN, hH,
        Except.mapError] at hok
    | ok hostname =>
      cases hV : d.K8sVersion config.KubernetesVersion with
      | error e =>
        simp [resources.ToBootstrapFile, bind, andThen_error, andThen_ok, Traced.call, hN, hH,
          hV, Except.mapError, pure] at hok
      | ok k8sVersion =>
        by_cases hT : config.Token = ""
        · cases hG : d.Generate with
          | error e =>
            simp [resources.ToBootstrapFile, bind, andThen_error, andThen_ok, Traced.call, hN,
              hH, hV, hT, hG, Except.mapError, pure] at hok
          | ok token =>
            exact ⟨_, _, token, Or.inr ⟨hN, hostname, rfl, rfl⟩, rfl, Or.inr ⟨hT, rfl⟩⟩
        · exact ⟨_, _, _, Or.inr ⟨hN, hostname, rfl, rfl⟩, rfl, Or.inl ⟨hT, rfl⟩⟩
  · cases hV : d.K8sVersion config.KubernetesVersion with
    | error e =>
      simp [resources.ToBootstrapFile, bind, andThen_error, andThen_ok, Traced.call, hN,
        hV, pure] at hok
    | ok k8sVersion =>
      by_cases hT : config.Token = ""
      · cases hG : d.Generate with
        | error e =>
          simp [resources.ToBootstrapFile, bind, andThen_error, andThen_ok, Traced.call, hN,
            hV, hT, hG, pure] at hok
        | ok token =>
          exact ⟨_, _, token, Or.inl ⟨hN, rfl⟩, rfl, Or.inr ⟨hT, rfl⟩⟩
      · exact ⟨_, _, _, Or.inl ⟨hN, rfl⟩, rfl, Or.inl ⟨hT, rfl⟩⟩

/-- C3, counterexample: with an empty resources list, a resolvable version and a
generated token, `ToBootstrapFile` returns a File, not `nil, nil`. -/
theorem ToBootstrapFile_empty_resources_returns_file :
    resources.initConfig.Resources = [] ∧
      resources.sampleDeps.K8sVersion resources.initConfig.KubernetesVersion
        = .ok "v1.27.13+rke2r1" ∧
      resources.sampleDeps.Generate = .ok "k8stoken" ∧
      (resources.ToBootstrapFile resources.sampleDeps resources.initConfig
          "/var/lib/rancher/rancherd/bootstrapmanifests/rancherd.yaml").1
        = .ok (some { Content := "LS0tLQ==",
                      Path := "/var/lib/rancher/rancherd/bootstrapmanifests/rancherd.yaml" }) ∧
      (resources.ToBootstrapFile resources.sampleDeps resources.initConfig
          "/var/lib/rancher/rancherd/bootstrapmanifests/rancherd.yaml").1
        ≠ .ok none := by
  refine ⟨rfl, rfl, rfl, rfl, ?_⟩
  intro h
  exact Option.noConfusion (Except.ok.inj h)

/-- C3, amended: with an empty resources list and node name, version and token
resolved, `ToBootstrapFile` hands exactly the four documents Node, Namespace,
Cluster, Secret to the serializer and returns the File of their stream (or the
serializer's error), never `nil, nil`; `ToFile` on an empty list is what returns
`nil, nil`, without calling the serializer. -/
theorem ToBootstrapFile_empty_resources (d : resources.Deps) (config : Config)
    (path nodeName k8sVersion token : String)
    (hres : config.Resources = [])
    (hnode : (config.NodeName ≠ "" ∧ nodeName = config.NodeName) ∨
      (config.NodeName = "" ∧
        ∃ hostname, d.Hostname = .ok hostname ∧ nodeName = firstDotSegment hostname))
    (hver : d.K8sVersion config.KubernetesVersion = .ok k8sVersion)
    (htok : (config.Token ≠ "" ∧ token = config.Token) ∨
      (config.Token = "" ∧ d.Generate = .ok token)) :
    (resources.ToBootstrapFile d config path).1 =
        (d.ToBytes (resources.asObjects
          [resources.nodeDocument nodeName, resources.namespaceDocument,
            resources.clusterDocument k8sVersion, resources.secretDocument token])).map
          (fun data => some { Content := base64EncodeToString data, Path := path }) ∧
      (resources.ToBootstrapFile d config path).1 ≠ .ok none ∧
      (∃ calls, (resources.ToBootstrapFile d config path).2 = calls ++
        [Call.yamlToBytes (resources.asObjects
          [resources.nodeDocument nodeName, resources.namespaceDocument,
            resources.clusterDocument k8sVersion, resources.secretDocument token])]) ∧
      resources.ToFile d config.Resources path = (.ok none, []) := by
  have h := ToBootstrapFile_resolved d config path nodeName k8sVersion token hnode hver htok
  rw [hres, List.nil_append] at h
  refine ⟨by rw [h], ?_, ⟨_, by rw [h]⟩, ?_⟩
  · rw [h]
    cases d.ToBytes (resources.asObjects
      [resources.nodeDocument nodeName, resources.namespaceDocument,
        resources.clusterDocument k8sVersion, resources.secretDocument token]) with
    | error e => simp [Except.map]
    | ok data => simp [Except.map]
  · rw [hres]
    rfl

/-- Scenario A without caller resources: the File of the four documents. -/
theorem ToBootstrapFile_empty_resources_witness :
    (resources.ToBootstrapFile resources.sampleDeps resources.initConfig "/p").1 =
        (resources.sampleDeps.ToBytes (resources.asObjects
          [resources.nodeDocument "node1", resources.namespaceDocument,
            resources.clusterDocument "v1.27.13+rke2r1",
            resources.secretDocument "k8stoken"])).map
          (fun data => some { Content := base64EncodeToString data, Path := "/p" }) ∧
      (resources.ToBootstrapFile resources.sampleDeps resources.initConfig "/p").1
        ≠ .ok none ∧
      (∃ calls, (resources.ToBootstrapFile resources.sampleDeps resources.initConfig "/p").2
        = calls ++
        [Call.yamlToBytes (resources.asObjects
          [resources.nodeDocument "node1", resources.namespaceDocument,
            resources.clusterDocument "v1.27.13+rke2r1",
            resources.secretDocument "k8stoken"])]) ∧
      resources.ToFile resources.sampleDeps resources.initConfig.Resources "/p"
        = (.ok none, []) :=
  ToBootstrapFile_empty_resources resources.sampleDeps resources.initConfig "/p"
    "node1" "v1.27.13+rke2r1" "k8stoken" rfl
    (Or.inr ⟨rfl, "node1.example.com", rfl, rfl⟩) rfl (Or.inr ⟨rfl, rfl⟩)

/-- C4, counterexample: the resources list is non-empty, the version resolves and
the token is configured, but `NodeName` is empty and the host name lookup fails:
`ToBootstrapFile` returns the error `looking up hostname: ...` and no File, and
its only call is the lookup, so no document list reaches the serializer. -/
theorem ToBootstrapFile_hostname_failure :
    resources.unnamedNodeConfig.Resources ≠ [] ∧
      resources.noHostnameDeps.K8sVersion resources.unnamedNodeConfig.KubernetesVersion
        = .ok "v1.27.13+rke2r1" ∧
      resources.unnamedNodeConfig.Token = "abc" ∧
      resources.ToBootstrapFile resources.noHostnameDeps resources.unnamedNodeConfig "/p" =
        (.error "looking up hostname: hostname: unavailable", [Call.osHostname]) ∧
      (∀ file, (resources.ToBootstrapFile resources.noHostnameDeps
          resources.unnamedNodeConfig "/p").1 ≠ .ok file) ∧
      ∀ objs, Call.yamlToBytes objs ∉
        (resources.ToBootstrapFile resources.noHostnameDeps
          resources.unnamedNodeConfig "/p").2 := by
  have h : resources.ToBootstrapFile resources.noHostnameDeps
      resources.unnamedNodeConfig "/p" =
      (.error "looking up hostname: hostname: unavailable", [Call.osHostname]) := rfl
  refine ⟨List.cons_ne_nil _ _, rfl, rfl, h, ?_, ?_⟩
  · intro file hfile
    rw [h] at hfile
    exact Except.noConfusion hfile
  · intro objs hmem
    rw [h] at hmem
    simp at hmem

/-- C4, amended: with a non-empty resources list of length `n` and node name
(the configured one, or the first segment of a host name whose lookup succeeds),
version and token resolved, `ToBootstrapFile` makes one serializer call, on
`n + 4` objects: the caller's resources, unchanged and in order, then Node,
Namespace `fleet-local`, Cluster and Secret; the returned File has the given path
and the base64 encoding of the serialized stream as content (a serializer error
is returned as it is). -/
theorem ToBootstrapFile_documents (d : resources.Deps) (config : Config)
    (path nodeName k8sVersion token : String)
    (_hres : config.Resources ≠ [])
    (hnode : (config.NodeName ≠ "" ∧ nodeName = config.NodeName) ∨
      (config.NodeName = "" ∧
        ∃ hostname, d.Hostname = .ok hostname ∧ nodeName = firstDotSegment hostname))
    (hver : d.K8sVersion config.KubernetesVersion = .ok k8sVersion)
    (htok : (config.Token ≠ "" ∧ token = config.Token) ∨
      (config.Token = "" ∧ d.Generate = .ok token)) :
    ∃ (node ns cluster secret : GenericMap) (objs : List Unstructured),
      docKind node.Data = some (.str "Node") ∧
      docKind ns.Data = some (.str "Namespace") ∧
      docMetadataName ns.Data = some (.str "fleet-local") ∧
      docKind cluster.Data = some (.str "Cluster") ∧
      docKind secret.Data = some (.str "Secret") ∧
      objs = (config.Resources ++ [node, ns, cluster, secret]).map
        (fun r => { Object := r.Data }) ∧
      objs.length = config.Resources.length + 4 ∧
      (resources.ToBootstrapFile d config path).2 =
        (if config.NodeName = "" then [Call.osHostname] else []) ++
          [Call.versionsK8sVersion config.KubernetesVersion] ++
          (if config.Token = "" then [Call.randomtokenGenerate] else []) ++
          [Call.yamlToBytes objs] ∧
      (resources.ToBootstrapFile d config path).1 =
        (d.ToBytes objs).map
          (fun data => some { Content := base64EncodeToString data, Path := path }) := by
  have h := ToBootstrapFile_resolved d config path nodeName k8sVersion token hnode hver htok
  refine ⟨resources.nodeDocument nodeName, resources.namespaceDocument,
    resources.clusterDocument k8sVersion, resources.secretDocument token, _,
    rfl, rfl, rfl, rfl, rfl, rfl, by simp, by rw [h]; rfl, by rw [h]; rfl⟩

/-- One caller resource, explicit node name and token: five objects, the File
`/p`. -/
theorem ToBootstrapFile_documents_witness :
    ∃ (node ns cluster secret : GenericMap) (objs : List Unstructured),
      docKind node.Data = some (.str "Node") ∧
      docKind ns.Data = some (.str "Namespace") ∧
      docMetadataName ns.Data = some (.str "fleet-local") ∧
      docKind cluster.Data = some (.str "Cluster") ∧
      docKind secret.Data = some (.str "Secret") ∧
      objs = (resources.oneResourceConfig.Resources ++ [node, ns, cluster, secret]).map
        (fun r => { Object := r.Data }) ∧
      objs.length = resources.oneResourceConfig.Resources.length + 4 ∧
      (resources.ToBootstrapFile resources.sampleDeps resources.oneResourceConfig "/p").2 =
        (if resources.oneResourceConfig.NodeName = "" then [Call.osHostname] else []) ++
          [Call.versionsK8sVersion resources.oneResourceConfig.KubernetesVersion] ++
          (if resources.oneResourceConfig.Token = "" then [Call.randomtokenGenerate]
            else []) ++
          [Call.yamlToBytes objs] ∧
      (resources.ToBootstrapFile resources.sampleDeps resources.oneResourceConfig "/p").1 =
        (resources.sampleDeps.ToBytes objs).map
          (fun data => some { Content := base64EncodeToString data, Path := "/p" }) :=
  ToBootstrapFile_documents resources.sampleDeps resources.oneResourceConfig "/p"
    "node1" "v1.27.13+rke2r1" "abc" (List.cons_ne_nil _ _)
    (Or.inl ⟨by decide, rfl⟩) rfl (Or.inl ⟨by decide, rfl⟩)

/-- The same call evaluated: five one-byte documents, encoded. -/
theorem ToBootstrapFile_one_resource_example :
    resources.ToBootstrapFile resources.sampleDeps resources.oneResourceConfig "/p" =
      (.ok (some { Content := "LS0tLS0=", Path := "/p" }),
       [Call.versionsK8sVersion "v1.27.13+rke2r1",
        Call.yamlToBytes (resources.asObjects
          [resources.sampleResource, resources.nodeDocument "node1",
            resources.namespaceDocument, resources.clusterDocument "v1.27.13+rke2r1",
            resources.secretDocument "abc"])]) := by
  rfl

/-- C5: in every successful result of `ToBootstrapFile`, the last object handed to
the serializer is the Secret, and its data fields `serverToken` and `agentToken`
are the bytes of one token: `config.Token` with no call of the generator when it
is non-empty, the token of the single generator call when it is empty. -/
theorem ToBootstrapFile_secret_tokens (d : resources.Deps) (config : Config)
    (path : String) (r : Option File)
    (hok : (resources.ToBootstrapFile d config path).1 = .ok r) :
    ∃ (token : String) (objs : List Unstructured) (secret : Unstructured)
        (data : List UInt8) (calls : List Call),
      (resources.ToBootstrapFile d config path).2 = calls ++ [Call.yamlToBytes objs] ∧
      d.ToBytes objs = .ok data ∧
      r = some { Content := base64EncodeToString data, Path := path } ∧
      objs.getLast? = some secret ∧
      docKind secret.Object = some (.str "Secret") ∧
      docDataField secret.Object "serverToken" = some (.bytes (bytesOf token)) ∧
      docDataField secret.Object "agentToken" = some (.bytes (bytesOf token)) ∧
      (if config.Token = "" then
        d.Generate = .ok token ∧
          (resources.ToBootstrapFile d config path).2.countP Call.isGenerate = 1
      else
        token = config.Token ∧
          (resources.ToBootstrapFile d config path).2.countP Call.isGenerate = 0) := by
  obtain ⟨nodeName, k8sVersion, token, hnode, hver, htok⟩ :=
    ToBootstrapFile_ok_resolved d config path r hok
  have h := ToBootstrapFile_resolved d config path nodeName k8sVersion token hnode hver htok
  rw [h] at hok
  rw [h]
  cases hb : d.ToBytes (resources.asObjects (config.Resources ++
      [resources.nodeDocument nodeName, resources.namespaceDocument,
        resources.clusterDocument k8sVersion, resources.secretDocument token])) with
  | error e => simp [hb, Except.map] at hok
  | ok data =>
    simp only [hb, Except.map, Except.ok.injEq] at hok
    refine ⟨token, _, { Object := (resources.secretDocument token).Data }, data, _,
      rfl, hb, hok.symm, ?_, rfl, rfl, rfl, ?_⟩
    · simp [resources.asObjects]
    · have hcount : ∀ objs, List.countP Call.isGenerate [Call.yamlToBytes objs] = 0 :=
        fun _ => rfl
      have hcountv : ∀ v, List.countP Call.isGenerate [Call.versionsK8sVersion v] = 0 :=
        fun _ => rfl
      have hcounth : List.countP Call.isGenerate [Call.osHostname] = 0 := rfl
      have hcountg : List.countP Call.isGenerate [Call.randomtokenGenerate] = 1 := rfl
      rcases htok with ⟨hT, rfl⟩ | ⟨hT, hG⟩
      · simp only [hT, if_false, true_and, List.countP_append, hcount, hcountv]
        split <;> simp [hcounth]
      · simp only [hT, if_true, hG, true_and, List.countP_append, hcount, hcountv, hcountg]
        split <;> simp [hcounth]

/-- Scenario A: the token is generated once and stored under both keys. -/
theorem ToBootstrapFile_secret_tokens_witness :
    ∃ (token : String) (objs : List Unstructured) (secret : Unstructured)
        (data : List UInt8) (calls : List Call),
      (resources.ToBootstrapFile resources.sampleDeps resources.initConfig "/p").2
        = calls ++ [Call.yamlToBytes objs] ∧
      resources.sampleDeps.ToBytes objs = .ok data ∧
      some ({ Content := "LS0tLQ==", Path := "/p" } : File)
        = some { Content := base64EncodeToString data, Path := "/p" } ∧
      objs.getLast? = some secret ∧
      docKind secret.Object = some (.str "Secret") ∧
      docDataField secret.Object "serverToken" = some (.bytes (bytesOf token)) ∧
      docDataField secret.Object "agentToken" = some (.bytes (bytesOf token)) ∧
      (if resources.initConfig.Token = "" then
        resources.sampleDeps.Generate = .ok token ∧
          (resources.ToBootstrapFile resources.sampleDeps resources.initConfig
            "/p").2.countP Call.isGenerate = 1
      else
        token = resources.initConfig.Token ∧
          (resources.ToBootstrapFile resources.sampleDeps resources.initConfig
            "/p").2.countP Call.isGenerate = 0) :=
  ToBootstrapFile_secret_tokens resources.sampleDeps resources.initConfig "/p"
    (some { Content := "LS0tLQ==", Path := "/p" }) rfl

/-- C6: if a call of `getCattleID` succeeds with `v` (from a non-blank file, or by
generating and writing a token, the generator yielding non-empty tokens without
surrounding white space), then a second call on the resulting store, whatever
the generator and the file-system faults then are, returns `v` again, leaves the
store unchanged, and only reads the file: it makes no write. -/
theorem getCattleID_idempotent (d d' : resources.Deps) (s s' : resources.Store)
    (v : String) (calls : List Call)
    (hgen : ∀ t, d.Generate = .ok t → t ≠ "" ∧ stringsTrimSpace t = t)
    (hfirst : resources.getCattleID d s = ((.ok v, s'), calls)) :
    resources.getCattleID d' s' =
        ((.ok v, s'), [Call.readFile "/etc/rancher/agent/cattle-id"]) ∧
      ∀ c ∈ (resources.getCattleID d' s').2, c.isWrite = false ∧ c.isGenerate = false := by
  have hsecond : resources.getCattleID d' s' =
      ((.ok v, s'), [Call.readFile "/etc/rancher/agent/cattle-id"]) := by
    unfold resources.getCattleID at hfirst
    cases hF : s.readFault with
    | some err => simp [resources.readCattleIDFile, hF] at hfirst
    | none =>
      simp only [resources.readCattleIDFile, hF] at hfirst
      by_cases hid : stringsTrimSpace (s.cattleID.getD "") = ""
      · simp only [hid, if_true] at hfirst
        cases hG : d.Generate with
        | error e => simp [hG] at hfirst
        | ok id =>
          obtain ⟨hne, htrim⟩ := hgen id hG
          simp only [hG, resources.writeCattleID] at hfirst
          cases hM1 : d.MkdirAllFault "/etc/rancher" with
          | some e => simp [hM1] at hfirst
          | none =>
            cases hM2 : d.MkdirAllFault "/etc/rancher/agent" with
            | some e => simp [hM1, hM2] at hfirst
            | none =>
              cases hW : d.WriteFileFault with
              | some e => simp [hM1, hM2, hW] at hfirst
              | none =>
                simp only [hM1, hM2, hW, Prod.mk.injEq, Except.ok.injEq] at hfirst
                obtain ⟨⟨rfl, rfl⟩, -⟩ := hfirst
                simp [resources.getCattleID, resources.readCattleIDFile, hF, htrim, hne]
      · simp only [hid, if_false, Prod.mk.injEq, Except.ok.injEq] at hfirst
        obtain ⟨⟨rfl, rfl⟩, -⟩ := hfirst
        simp [resources.getCattleID, resources.readCattleIDFile, hF, hid]
  refine ⟨hsecond, ?_⟩
  rw [hsecond]
  intro c hc
  simp only [List.mem_singleton] at hc
  subst hc
  exact ⟨rfl, rfl⟩

/-- On the empty store the first call generates and writes `k8stoken`; the second
call, with every generator and file-system call failing, reads it back. -/
theorem getCattleID_idempotent_witness :
    resources.getCattleID resources.sampleDeps resources.emptyStore =
        ((.ok "k8stoken",
          { etcRancher := true, etcRancherAgent := true, cattleID := some "k8stoken",
            readFault := none }),
         [Call.readFile "/etc/rancher/agent/cattle-id", Call.randomtokenGenerate,
          Call.mkdirAll "/etc/rancher" 0o755, Call.mkdirAll "/etc/rancher/agent" 0o700,
          Call.writeFile "/etc/rancher/agent/cattle-id" "k8stoken" 0o400]) ∧
      (resources.getCattleID resources.failingDeps
          { etcRancher := true, etcRancherAgent := true, cattleID := some "k8stoken",
            readFault := none } =
        ((.ok "k8stoken",
          { etcRancher := true, etcRancherAgent := true, cattleID := some "k8stoken",
            readFault := none }),
         [Call.readFile "/etc/rancher/agent/cattle-id"]) ∧
      ∀ c ∈ (resources.getCattleID resources.failingDeps
          { etcRancher := true, etcRancherAgent := true, cattleID := some "k8stoken",
            readFault := none }).2, c.isWrite = false ∧ c.isGenerate = false) :=
  ⟨rfl,
    getCattleID_idempotent resources.sampleDeps resources.failingDeps resources.emptyStore
      _ "k8stoken" _
      (fun t ht => by
        have ht' : t = "k8stoken" := (Except.ok.inj ht).symm
        subst ht'
        exact ⟨by decide, by decide⟩)
      rfl⟩

/-- A store whose identity file holds padded text: the call returns the trimmed
text and does not touch the store. -/
theorem getCattleID_existing_file :
    resources.getCattleID resources.failingDeps
        { etcRancher := true, etcRancherAgent := true, cattleID := some " node-7f3a\n",
          readFault := none } =
      ((.ok "node-7f3a",
        { etcRancher := true, etcRancherAgent := true, cattleID := some " node-7f3a\n",
          readFault := none }),
       [Call.readFile "/etc/rancher/agent/cattle-id"]) := by
  rfl

/-! ## `pkg/rancher` -/

/-- C8, counterexample: `ToUpdateClientSecretInstruction` succeeds with the single
argument `update-client-secret`; its arguments do not begin with `retry` and the
kubectl command. -/
theorem ToUpdateClientSecretInstruction_not_retry :
    rancher.ToUpdateClientSecretInstruction rancher.sampleDeps "" "" "v1.27.13+rke2r1" =
        .ok { Name := "update-client-secret", SaveOutput := true,
              Args := ["update-client-secret"],
              Env := ["KUBECONFIG=/etc/rancher/rke2/rke2.yaml"],
              Command := "/usr/bin/rancherd" } ∧
      ¬ ∃ inst rest,
        rancher.ToUpdateClientSecretInstruction rancher.sampleDeps "" "" "v1.27.13+rke2r1"
          = .ok inst ∧
        inst.Args = "retry" :: rancher.sampleDeps.Command "v1.27.13+rke2r1" :: rest := by
  refine ⟨rfl, ?_⟩
  rintro ⟨inst, rest, hinst, hargs⟩
  have h : inst.Args = ["update-client-secret"] := by
    have := Except.ok.inj hinst
    rw [← this]
  rw [h] at hargs
  have hlen := congrArg List.length hargs
  simp at hlen

/-- C8, amended: when self-location succeeds, the ten constructors of wait.go other
than `ToUpdateClientSecretInstruction` return an Instruction whose command is the
self path, with `SaveOutput` set and arguments beginning with `retry` and
`kubectl.Command(k8sVersion)`; `ToUpdateClientSecretInstruction` returns one with
the same command and flag whose only argument is `update-client-secret`. -/
theorem wait_instructions_retry_wrapped (d : rancher.Deps) (a b k8sVersion self : String)
    (hself : d.Self = .ok self) :
    (∀ r ∈ [rancher.ToWaitRancherInstruction d a b k8sVersion,
            rancher.ToWaitRancherWebhookInstruction d a b k8sVersion,
            rancher.ToWaitSUCInstruction d a b k8sVersion,
            rancher.ToWaitSUCPlanInstruction d a b k8sVersion,
            rancher.ToWaitClusterClientSecretInstruction d a b k8sVersion,
            rancher.ToScaleDownFleetControllerInstruction d a b k8sVersion,
            rancher.ToScaleUpFleetControllerInstruction d a b k8sVersion,
            rancher.ToDeleteRancherWebhookValidationConfiguration d k8sVersion,
            rancher.ToRestartRancherWebhookInstruction d k8sVersion,
            rancher.PatchLocalProvisioningClusterStatus d a b k8sVersion],
        ∃ inst rest, r = .ok inst ∧ inst.Command = self ∧ inst.SaveOutput = true ∧
          inst.Args = "retry" :: d.Command k8sVersion :: rest) ∧
      ∃ inst, rancher.ToUpdateClientSecretInstruction d a b k8sVersion = .ok inst ∧
        inst.Command = self ∧ inst.SaveOutput = true ∧
        inst.Args = ["update-client-secret"] := by
  constructor
  · intro r hr
    simp only [List.mem_cons, List.mem_singleton, List.not_mem_nil, or_false] at hr
    rcases hr with rfl | rfl | rfl | rfl | rfl | rfl | rfl | rfl | rfl | rfl
    · simp only [rancher.ToWaitRancherInstruction, hself]
      exact ⟨_, _, rfl, rfl, rfl, rfl⟩
    · simp only [rancher.ToWaitRancherWebhookInstruction, hself]
      exact ⟨_, _, rfl, rfl, rfl, rfl⟩
    · simp only [rancher.ToWaitSUCInstruction, hself]
      exact ⟨_, _, rfl, rfl, rfl, rfl⟩
    · simp only [rancher.ToWaitSUCPlanInstruction, hself]
      exact ⟨_, _, rfl, rfl, rfl, rfl⟩
    · simp only [rancher.ToWaitClusterClientSecretInstruction, hself]
      exact ⟨_, _, rfl, rfl, rfl, rfl⟩
    · simp only [rancher.ToScaleDownFleetControllerInstruction, hself]
      exact ⟨_, _, rfl, rfl, rfl, rfl⟩
    · simp only [rancher.ToScaleUpFleetControllerInstruction, hself]
      exact ⟨_, _, rfl, rfl, rfl, rfl⟩
    · simp only [rancher.ToDeleteRancherWebhookValidationConfiguration, hself]
      exact ⟨_, _, rfl, rfl, rfl, rfl⟩
    · simp only [rancher.ToRestartRancherWebhookInstruction, hself]
      exact ⟨_, _, rfl, rfl, rfl, rfl⟩
    · simp only [rancher.PatchLocalProvisioningClusterStatus, hself]
      exact ⟨_, _, rfl, rfl, rfl, rfl⟩
  · simp only [rancher.ToUpdateClientSecretInstruction, hself]
    exact ⟨_, rfl, rfl, rfl, rfl⟩

/-- The constructors on a resolvable executable `/usr/bin/rancherd`. -/
theorem wait_instructions_retry_wrapped_witness :
    (∀ r ∈ [rancher.ToWaitRancherInstruction rancher.sampleDeps "" "" "v1.27.13+rke2r1",
            rancher.ToWaitRancherWebhookInstruction rancher.sampleDeps "" "" "v1.27.13+rke2r1",
            rancher.ToWaitSUCInstruction rancher.sampleDeps "" "" "v1.27.13+rke2r1",
            rancher.ToWaitSUCPlanInstruction rancher.sampleDeps "" "" "v1.27.13+rke2r1",
            rancher.ToWaitClusterClientSecretInstruction rancher.sampleDeps "" ""
              "v1.27.13+rke2r1",
            rancher.ToScaleDownFleetControllerInstruction rancher.sampleDeps "" ""
              "v1.27.13+rke2r1",
            rancher.ToScaleUpFleetControllerInstruction rancher.sampleDeps "" ""
              "v1.27.13+rke2r1",
            rancher.ToDeleteRancherWebhookValidationConfiguration rancher.sampleDeps
              "v1.27.13+rke2r1",
            rancher.ToRestartRancherWebhookInstruction rancher.sampleDeps "v1.27.13+rke2r1",
            rancher.PatchLocalProvisioningClusterStatus rancher.sampleDeps "" ""
              "v1.27.13+rke2r1"],
        ∃ inst rest, r = .ok inst ∧ inst.Command = "/usr/bin/rancherd" ∧
          inst.SaveOutput = true ∧
          inst.Args = "retry" :: rancher.sampleDeps.Command "v1.27.13+rke2r1" :: rest) ∧
      ∃ inst, rancher.ToUpdateClientSecretInstruction rancher.sampleDeps "" ""
          "v1.27.13+rke2r1" = .ok inst ∧
        inst.Command = "/usr/bin/rancherd" ∧ inst.SaveOutput = true ∧
        inst.Args = ["update-client-secret"] :=
  wait_instructions_retry_wrapped rancher.sampleDeps "" "" "v1.27.13+rke2r1"
    "/usr/bin/rancherd" rfl

/-- C10, the code at the failing input: `ToWaitRancherWebhookInstruction` and
`ToRestartRancherWebhookInstruction` both succeed and return different
Instructions with the same name `wait-rancher-webhook`. -/
theorem webhook_instructions_share_name :
    ∃ waitInst restartInst,
      rancher.ToWaitRancherWebhookInstruction rancher.sampleDeps "" "" "v1.27.13+rke2r1"
        = .ok waitInst ∧
      rancher.ToRestartRancherWebhookInstruction rancher.sampleDeps "v1.27.13+rke2r1"
        = .ok restartInst ∧
      waitInst.Name = "wait-rancher-webhook" ∧
      restartInst.Name = "wait-rancher-webhook" ∧
      waitInst.Name = restartInst.Name ∧
      waitInst.Args ≠ restartInst.Args := by
  refine ⟨_, _, rfl, rfl, rfl, rfl, rfl, ?_⟩
  decide

/-- Apart from that pair, the names given by wait.go are pairwise distinct. -/
theorem wait_instruction_names_otherwise_distinct :
    ["wait-rancher", "wait-rancher-webhook", "wait-system-upgrade-controller",
      "wait-suc-plan-resolved", "wait-cluster-client-secret-resolved",
      "update-client-secret", "scale-down-fleet-controller", "scale-up-fleet-controller",
      "delete-rancher-webhook-validation-configuration",
      "patch-provisioning-cluster-status"].Nodup := by
  decide

end Rancherd
